import Mathlib

/-!
Shallow embedding of the Industry_4.0 backend classification workflow
(`backend/src/controllers/classification.js`, `backend/src/utils/genai.js`,
`backend/src/utils/inference-client.js`, `backend/src/utils/s3.js`) together
with the Prisma data model (`User`, `History`).

External collaborators (Prisma/PostgreSQL, S3, the inference HTTP API, the
GenAI provider) are modelled by explicit state (`DB`, `Store`) and by an
environment `Env` fixing the outcome of each awaited network call.  JavaScript
truthiness on strings (`""` is falsy) and the `a || b` idiom are modelled by
`truthy` / `jsOr` / `jsOrDefault`.
-/

namespace Industry

/-- JS truthiness of an optional string field: `undefined`/`null` and `""` are
falsy, every other string is truthy. -/
def truthy : Option String → Bool
  | none => false
  | some s => !(s == "")

/-- `a || b` on optional string fields (JS: returns `a` when truthy, else `b`,
keeping `b` as-is even when falsy). -/
def jsOr (a b : Option String) : Option String :=
  if truthy a then a else b

/-- `a || d` with a string literal default (JS: the default is returned when
`a` is absent or the empty string). -/
def jsOrDefault (a : Option String) (d : String) : String :=
  match a with
  | some s => if s == "" then d else s
  | none => d

/-- `parseInt(x) || d`: an absent query parameter, or one parsing to `0`,
falls back to the default (model restricted to well-formed nonnegative
integer parameters). -/
def jsOrNum (v : Option Nat) (d : Nat) : Nat :=
  match v with
  | some n => if n = 0 then d else n
  | none => d

/-- `String.prototype.split(sep)` for a one-character separator, on the
character list of the string. -/
def splitOnChar (c : Char) : List Char → List (List Char)
  | [] => [[]]
  | x :: xs =>
    match splitOnChar c xs with
    | [] => if x = c then [[], []] else [[x]]
    | y :: ys => if x = c then [] :: y :: ys else (x :: y) :: ys

/-- `email.split('@')[0]`: the local part used as the default `fullName`. -/
def localPart (email : String) : String :=
  String.mk ((splitOnChar '@' email.toList).headD [])

/-- A character allowed by the regex class `[^\s@]`. -/
def emailChar (c : Char) : Bool :=
  !c.isWhitespace && !(c = '@')

/-- The controller's email check `/^[^\s@]+@[^\s@]+\.[^\s@]+$/`: exactly one
`'@'`, a nonempty whitespace-free local part, and a whitespace-free domain
containing a `'.'` that is neither its first nor its last character. -/
def validEmail (email : String) : Bool :=
  match splitOnChar '@' email.toList with
  | [lp, dom] =>
    !lp.isEmpty && lp.all emailChar && !dom.isEmpty && dom.all emailChar &&
      (dom.drop 1).dropLast.contains '.'
  | _ => false

/-- `String.prototype.toLowerCase()` (ASCII-faithful model). -/
def jsToLower (s : String) : String :=
  String.mk (s.toList.map Char.toLower)

/-! ## Data model (prisma/schema: `User`, `History`) -/

structure User where
  id : Nat
  email : String
  fullName : Option String
  phoneNumber : Option String := none
  role : String := "user"
  isActive : Bool := true
  createdAt : Nat := 0
deriving Repr, DecidableEq

/-- The classification JSON returned by the inference API; only the fields the
backend reads are modelled, each optional since the payload is uncontrolled. -/
structure ClassificationResult where
  disease : Option String := none
  predicted_class : Option String := none
  confidence : Option ℚ := none
  crop_type : Option String := none
deriving Repr, DecidableEq

/-- A `History` row.  `model_response` is stored verbatim
(`JSON.stringify`/`JSON.parse` round-trip is the identity in the model). -/
structure HistoryRecord where
  id : Nat
  userId : Nat
  image : Option String := none
  disease : Option String := none
  cropType : Option String := none
  model_response : Option ClassificationResult := none
  genai_response : Option String := none
  created_at : Nat := 0
deriving Repr, DecidableEq

/-- The relational database: both tables plus id generators and a clock for
`createdAt`/`created_at` defaults. -/
structure DB where
  users : List User := []
  histories : List HistoryRecord := []
  nextUserId : Nat := 0
  nextHistoryId : Nat := 0
  now : Nat := 0
deriving Repr, DecidableEq

/-- The object store: the set of uploaded blob keys. -/
structure Store where
  blobs : List String := []
deriving Repr, DecidableEq

/-- Outcome of each awaited collaborator call during one request, plus the S3
configuration read from the environment.  `s3 = .ok rand` yields the random
hex file name `crypto.randomBytes(16).toString('hex')` would produce. -/
structure Env where
  userCreate : Except String Unit := .ok ()
  s3 : Except String String := .ok "0123456789abcdef"
  inference : Except String ClassificationResult := .error "unavailable"
  historyCreate : Except String Unit := .ok ()
  genaiConfigured : Bool := false
  genaiCall : Except String String := .error "unavailable"
  s3Endpoint : String := "https://s3.example"
  s3Bucket : String := "bucket"
deriving Repr

/-- One inbound `POST /api/classify` request (multipart body). -/
structure FileUpload where
  originalname : String
  mimetype : String := "image/jpeg"
deriving Repr, DecidableEq

structure Request where
  file : Option FileUpload := none
  email : Option String := none
  cropType : Option String := none
deriving Repr, DecidableEq

/-- Trace of collaborator calls issued while handling a request. -/
inductive Collab where
  | userLookup (email : String)
  | userCreate (email : String)
  | s3Upload
  | inference (modelName : String)
  | insights
  | historyCreate
deriving Repr, DecidableEq

/-- An HTTP response: success with a payload, or an `ApiError` status/message. -/
inductive Outcome (α : Type) where
  | ok (status : Nat) (data : α)
  | err (status : Nat) (message : String)
deriving Repr, DecidableEq

/-! ## genai.js -/

/-- `(confidence * 100).toFixed(2)` : decimal rendering with two fractional
digits (round half up). -/
def toFixed2 (x : ℚ) : String :=
  let n : ℤ := ⌊x * 100 + 1 / 2⌋
  toString (n / 100) ++ "." ++ (if n % 100 < 10 then "0" else "") ++ toString (n % 100)

/-- `confidence ? (confidence * 100).toFixed(2) : 'N/A'` (JS: `0` is falsy). -/
def confidenceDisplay (c : Option ℚ) : String :=
  match c with
  | none => "N/A"
  | some q => if q = 0 then "N/A" else toFixed2 (q * 100)

/-- `GenAIService.getFallbackResponse`: the deterministic fallback text.  The
source builds a template literal and calls `.trim()`; the trim only removes
the constant leading and trailing whitespace of the template, which is
already absent here. -/
def getFallbackResponse (result : ClassificationResult) (cropType : String) : String :=
  let detectedDisease := jsOrDefault (jsOr result.disease result.predicted_class) "Unknown condition"
  let confidencePercent := confidenceDisplay result.confidence
  "Classification Result for " ++ cropType ++ ":\n\nDetected Condition: " ++
    detectedDisease ++ "\nConfidence: " ++ confidencePercent ++
    "%\n\nNote: AI-powered insights are currently unavailable. Please consult with a local agricultural expert for detailed treatment recommendations and management strategies for this condition.\n\nGeneral Recommendations:\n- Monitor the affected plants closely\n- Isolate affected plants if possible to prevent spread\n- Maintain proper crop spacing and ventilation\n- Follow integrated pest management practices\n- Consult with local agricultural extension services\n\nFor detailed treatment plans, please contact a certified agricultural specialist."

/-- `GenAIService.generateInsights`: returns the provider text when a client
is configured and the call succeeds, and the fallback text otherwise; it
never throws (the provider call sits inside `try`/`catch`). -/
def generateInsights (configured : Bool) (providerCall : Except String String)
    (result : ClassificationResult) (cropType : String) : String :=
  if !configured then getFallbackResponse result cropType
  else
    match providerCall with
    | .ok text => text
    | .error _ => getFallbackResponse result cropType

/-! ## s3.js -/

/-- `uploadToS3(buffer, originalName, mimetype, folder)`: builds the key
`folder/<random>.<extension>` and the public URL, and records the blob. -/
def uploadToS3 (env : Env) (store : Store) (originalName folder : String) :
    Except String (String × String) × Store :=
  match env.s3 with
  | .error msg => (.error msg, store)
  | .ok rand =>
    let extension := String.mk ((splitOnChar '.' originalName.toList).getLastD [])
    let key := folder ++ "/" ++ rand ++ "." ++ extension
    let url := env.s3Endpoint ++ "/" ++ env.s3Bucket ++ "/" ++ key
    (.ok (key, url), { store with blobs := store.blobs ++ [key] })

/-! ## inference-client.js / controller model selection -/

/-- `cropType?.toLowerCase() === 'maize' ? 'maize' : 'bean'`. -/
def modelNameFor (cropType : Option String) : String :=
  match cropType with
  | some s => if jsToLower s == "maize" then "maize" else "bean"
  | none => "bean"

/-! ## controllers/classification.js : classifyImage -/

/-- Summary of the owning user embedded in responses
(`select: {id, email, fullName}`). -/
structure UserSummary where
  id : Nat
  email : String
  fullName : Option String
deriving Repr, DecidableEq

structure ClassificationSummary where
  disease : Option String
  confidence : Option ℚ
  cropType : Option String
  fullResult : ClassificationResult
deriving Repr, DecidableEq

/-- The `data` object of the 200 response of `classifyImage`. -/
structure ClassifyData where
  id : Nat
  user : UserSummary
  image : String
  classification : ClassificationSummary
  insights : String
  createdAt : Nat
deriving Repr, DecidableEq

structure ClassifyResult where
  response : Outcome ClassifyData
  db : DB
  store : Store
  calls : List Collab
deriving Repr

/-- The user row `prisma.user.create` inserts on first contact:
`fullName` defaults to the email's local part. -/
def mkUser (db : DB) (email : String) : User :=
  { id := db.nextUserId, email := email, fullName := some (localPart email),
    createdAt := db.now }

/-- Steps 3–6 of `classifyImage`: inference, insights, save, respond. -/
def classifyFromUpload (env : Env) (db : DB) (store : Store) (req : Request)
    (user : User) (url : String) (calls : List Collab) : ClassifyResult :=
  let modelName := modelNameFor req.cropType
  match env.inference with
  | .error msg =>
    ⟨.err 500 ("Classification failed: " ++ msg), db, store, calls ++ [.inference modelName]⟩
  | .ok result =>
    let cropResolved := jsOrDefault (jsOr req.cropType result.crop_type) "crop"
    let aiInsights := generateInsights env.genaiConfigured env.genaiCall result cropResolved
    match env.historyCreate with
    | .error msg =>
      ⟨.err 500 ("Classification failed: " ++ msg), db, store,
        calls ++ [.inference modelName, .insights, .historyCreate]⟩
    | .ok _ =>
      let record : HistoryRecord :=
        { id := db.nextHistoryId, userId := user.id, image := some url,
          disease := some (jsOrDefault (jsOr result.disease result.predicted_class) "Unknown"),
          cropType := jsOr req.cropType (jsOr result.crop_type none),
          model_response := some result,
          genai_response := some aiInsights,
          created_at := db.now }
      ⟨.ok 200
          { id := record.id,
            user := ⟨user.id, user.email, user.fullName⟩,
            image := url,
            classification :=
              { disease := jsOr result.disease result.predicted_class,
                confidence := result.confidence,
                cropType := jsOr req.cropType result.crop_type,
                fullResult := result },
            insights := aiInsights,
            createdAt := record.created_at },
        { db with histories := db.histories ++ [record],
                  nextHistoryId := db.nextHistoryId + 1 },
        store,
        calls ++ [.inference modelName, .insights, .historyCreate]⟩

/-- Step 2 of `classifyImage`: upload to S3, then continue. -/
def classifyFromUser (env : Env) (db : DB) (store : Store) (req : Request)
    (file : FileUpload) (user : User) (calls : List Collab) : ClassifyResult :=
  match uploadToS3 env store file.originalname "crop-images" with
  | (.error msg, store') =>
    ⟨.err 500 ("Classification failed: " ++ msg), db, store', calls ++ [.s3Upload]⟩
  | (.ok (_key, url), store') =>
    classifyFromUpload env db store' req user url (calls ++ [.s3Upload])

/-- `classifyImage(req, res, next)`: the full orchestration workflow.  A
thrown collaborator error is caught by the controller's `catch` and surfaces
as `ApiError(500, 'Classification failed: ...')`. -/
def classifyImage (env : Env) (db : DB) (store : Store) (req : Request) : ClassifyResult :=
  match req.file with
  | none => ⟨.err 400 "No image file provided", db, store, []⟩
  | some file =>
    if truthy req.email = false then ⟨.err 400 "Email is required", db, store, []⟩
    else
      let email := req.email.getD ""
      if validEmail email = false then ⟨.err 400 "Invalid email format", db, store, []⟩
      else
        match db.users.find? (fun u => u.email == email) with
        | some user => classifyFromUser env db store req file user [.userLookup email]
        | none =>
          match env.userCreate with
          | .error msg =>
            ⟨.err 500 ("Classification failed: " ++ msg), db, store,
              [.userLookup email, .userCreate email]⟩
          | .ok _ =>
            let user := mkUser db email
            classifyFromUser env
              { db with users := db.users ++ [user], nextUserId := db.nextUserId + 1 }
              store req file user [.userLookup email, .userCreate email]

/-! ## controllers/classification.js : getUserHistory -/

/-- `prisma.history.findMany({where: {userId}})`. -/
def userRecords (db : DB) (userId : Nat) : List HistoryRecord :=
  db.histories.filter (fun h => h.userId == userId)

/-- `orderBy: { created_at: 'desc' }`. -/
def newerFirst (a b : HistoryRecord) : Prop :=
  b.created_at ≤ a.created_at

instance : DecidableRel newerFirst := fun a b => Nat.decLe b.created_at a.created_at

instance : IsTotal HistoryRecord newerFirst :=
  ⟨fun a b => Nat.le_total b.created_at a.created_at⟩

instance : IsTrans HistoryRecord newerFirst :=
  ⟨fun _ _ _ hab hbc => Nat.le_trans hbc hab⟩

def sortNewestFirst (l : List HistoryRecord) : List HistoryRecord :=
  List.insertionSort newerFirst l

structure Pagination where
  page : Nat
  limit : Nat
  total : Nat
  totalPages : Nat
deriving Repr, DecidableEq

inductive HistoryData where
  | noUser (email : String) (history : List HistoryRecord)
  | found (user : UserSummary) (history : List HistoryRecord) (pagination : Pagination)
deriving Repr, DecidableEq

/-- `getUserHistory`: paginated history, newest first; an unknown email gets a
200 response with an empty history.  `totalPages` is
`Math.ceil(total / limit)`. -/
def getUserHistory (db : DB) (email : Option String) (pageQ limitQ : Option Nat) :
    Outcome HistoryData × DB :=
  if truthy email = false then (.err 400 "Email is required", db)
  else
    let e := email.getD ""
    match db.users.find? (fun u => u.email == e) with
    | none => (.ok 200 (.noUser e []), db)
    | some user =>
      let page := jsOrNum pageQ 1
      let limit := jsOrNum limitQ 10
      let skip := (page - 1) * limit
      let total := (userRecords db user.id).length
      (.ok 200 (.found ⟨user.id, user.email, user.fullName⟩
          (((sortNewestFirst (userRecords db user.id)).drop skip).take limit)
          ⟨page, limit, total, (total + limit - 1) / limit⟩),
        db)

/-! ## controllers/classification.js : getUserStats -/

structure StatCount where
  label : String
  count : Nat
deriving Repr, DecidableEq

/-- `prisma.history.groupBy` with a `not: null` filter and `_count`. -/
def groupCount (l : List (Option String)) : List StatCount :=
  let vals := l.filterMap id
  vals.dedup.map (fun k => ⟨k, vals.count k⟩)

structure Stats where
  totalScans : Nat
  diseaseDistribution : List StatCount
  cropDistribution : List StatCount
  recentScans : List HistoryRecord
deriving Repr, DecidableEq

inductive StatsData where
  | noUser (email : String) (stats : Stats)
  | found (user : UserSummary) (stats : Stats)
deriving Repr, DecidableEq

/-- `getUserStats`: grouped counts over the user's records; an unknown email
gets a 200 response with the all-zero/empty structure. -/
def getUserStats (db : DB) (email : Option String) : Outcome StatsData × DB :=
  if truthy email = false then (.err 400 "Email is required", db)
  else
    let e := email.getD ""
    match db.users.find? (fun u => u.email == e) with
    | none => (.ok 200 (.noUser e ⟨0, [], [], []⟩), db)
    | some user =>
      let recs := userRecords db user.id
      (.ok 200 (.found ⟨user.id, user.email, user.fullName⟩
          ⟨recs.length,
            groupCount (recs.map (fun h => h.disease)),
            groupCount (recs.map (fun h => h.cropType)),
            (sortNewestFirst recs).take 5⟩),
        db)

/-! ## controllers/classification.js : deleteClassification -/

/-- `deleteClassification`: 404 when the row is absent, 403 when the owner's
email differs from the caller's, otherwise delete the row.  The S3 blob is
never touched (the delete call is commented out in the source). -/
def deleteClassification (db : DB) (store : Store) (id : Option Nat)
    (email : Option String) : Outcome String × DB × Store :=
  if id.isNone || truthy email = false then
    (.err 400 "Classification ID and email are required", db, store)
  else
    let i := id.getD 0
    match db.histories.find? (fun h => h.id == i) with
    | none => (.err 404 "Classification not found", db, store)
    | some record =>
      match db.users.find? (fun u => u.id == record.userId) with
      | none => (.err 500 "Cannot read properties of null (reading email)", db, store)
      | some owner =>
        if (owner.email == email.getD "") = false then
          (.err 403 "You can only delete your own classifications", db, store)
        else
          (.ok 200 "Classification deleted successfully",
            { db with histories := db.histories.filter (fun h => !(h.id == i)) },
            store)

/-! ## Concrete fixtures used by closed witness theorems -/

def sampleFile : FileUpload := { originalname := "leaf.jpg" }

def sampleReq : Request := { file := some sampleFile, email := some "bob@example.com" }

def badReq : Request := { file := some sampleFile, email := some "not-an-email" }

/-- Environment in which every required collaborator succeeds and the
inference API returns an empty JSON object. -/
def envInferOk : Env := { inference := Except.ok {} }

/-- Environment in which the S3 upload fails. -/
def envS3Err : Env := { s3 := Except.error "storage" }

def paginationUser : User := { id := 7, email := "u@example.com", fullName := none }

/-- One user with fifteen history records, timestamps 1..15. -/
def paginationDB : DB :=
  { users := [paginationUser],
    histories := (List.range 15).map (fun k => { id := k, userId := 7, created_at := k + 1 }),
    nextUserId := 8, nextHistoryId := 15, now := 16 }

def ownerUser : User := { id := 1, email := "bob@example.com", fullName := some "bob" }

def ownedRecord : HistoryRecord := { id := 5, userId := 1 }

def deleteDB : DB :=
  { users := [ownerUser], histories := [ownedRecord],
    nextUserId := 2, nextHistoryId := 6, now := 9 }

/-! ## Helper lemmas -/

/-- An email accepted by the format check is nonempty, hence truthy. -/
lemma truthy_of_validEmail {e : String} (h : validEmail e = true) :
    truthy (some e) = true := by
  by_cases he : e = ""
  · subst he; exact absurd h (by decide)
  · simp [truthy, he]

/-- When no provider is configured, or the provider call fails,
`generateInsights` returns exactly the fallback text. -/
lemma generateInsights_degraded (configured : Bool) (call : Except String String)
    (result : ClassificationResult) (crop : String)
    (h : configured = false ∨ ∃ m, call = .error m) :
    generateInsights configured call result crop = getFallbackResponse result crop := by
  rcases h with h | ⟨m, h⟩
  · simp [generateInsights, h]
  · cases configured <;> simp [generateInsights, h]

/-- The fourth piece of a seven-piece concatenation occurs in it. -/
lemma data_infix_4th (s1 s2 s3 s4 s5 s6 s7 : String) :
    s4.data <:+: (s1 ++ s2 ++ s3 ++ s4 ++ s5 ++ s6 ++ s7).data := by
  refine ⟨s1.data ++ s2.data ++ s3.data, s5.data ++ s6.data ++ s7.data, ?_⟩
  simp [String.data_append, List.append_assoc]

/-- The sixth piece of a seven-piece concatenation occurs in it. -/
lemma data_infix_6th (s1 s2 s3 s4 s5 s6 s7 : String) :
    s6.data <:+: (s1 ++ s2 ++ s3 ++ s4 ++ s5 ++ s6 ++ s7).data := by
  refine ⟨s1.data ++ s2.data ++ s3.data ++ s4.data ++ s5.data, s7.data, ?_⟩
  simp [String.data_append, List.append_assoc]

/-- A seven-piece concatenation with a nonempty first piece is nonempty. -/
lemma append7_ne_empty (s1 s2 s3 s4 s5 s6 s7 : String) (h1 : s1 ≠ "") :
    s1 ++ s2 ++ s3 ++ s4 ++ s5 ++ s6 ++ s7 ≠ "" := by
  intro h
  apply h1
  have h2 := congrArg String.data h
  simp [String.data_append] at h2
  exact congrArg String.mk h2.1

/-- The fallback text names the detected condition. -/
lemma fallback_contains_condition (result : ClassificationResult) (crop : String) :
    (jsOrDefault (jsOr result.disease result.predicted_class) "Unknown condition").data <:+:
      (getFallbackResponse result crop).data :=
  data_infix_4th _ _ _ _ _ _ _

/-- The fallback text names the confidence. -/
lemma fallback_contains_confidence (result : ClassificationResult) (crop : String) :
    (confidenceDisplay result.confidence).data <:+: (getFallbackResponse result crop).data :=
  data_infix_6th _ _ _ _ _ _ _

/-- The fallback text is never empty. -/
lemma fallback_ne_empty (result : ClassificationResult) (crop : String) :
    getFallbackResponse result crop ≠ "" :=
  append7_ne_empty _ _ _ _ _ _ _ (by decide)

/-! ## Claim theorems -/

/-- Claim C1: a first successful classify call for a fresh, valid email
creates exactly one User, whose `fullName` defaults to the email's local
part, and exactly one HistoryRecord linked to that user; a second successful
call with the same email creates zero additional Users and exactly one
additional HistoryRecord, also linked to that user. -/
theorem classify_creates_user_once (env1 env2 : Env) (db : DB) (store : Store)
    (req req2 : Request) (file file2 : FileUpload) (email rand1 rand2 : String)
    (result1 result2 : ClassificationResult)
    (hf : req.file = some file) (he : req.email = some email)
    (hv : validEmail email = true)
    (hnone : db.users.find? (fun u => u.email == email) = none)
    (hs31 : env1.s3 = .ok rand1) (hinf1 : env1.inference = .ok result1)
    (huc1 : env1.userCreate = .ok ()) (hhc1 : env1.historyCreate = .ok ())
    (hf2 : req2.file = some file2) (he2 : req2.email = some email)
    (hs32 : env2.s3 = .ok rand2) (hinf2 : env2.inference = .ok result2)
    (hhc2 : env2.historyCreate = .ok ()) :
    ∃ u h1 h2,
      (classifyImage env1 db store req).db.users = db.users ++ [u] ∧
      u.email = email ∧ u.fullName = some (localPart email) ∧
      (classifyImage env1 db store req).db.histories = db.histories ++ [h1] ∧
      h1.userId = u.id ∧
      (classifyImage env2 (classifyImage env1 db store req).db
          (classifyImage env1 db store req).store req2).db.users =
        (classifyImage env1 db store req).db.users ∧
      (classifyImage env2 (classifyImage env1 db store req).db
          (classifyImage env1 db store req).store req2).db.histories =
        (classifyImage env1 db store req).db.histories ++ [h2] ∧
      h2.userId = u.id := by
  have ht := truthy_of_validEmail hv
  have hmk : ((mkUser db email).email == email) = true := by simp [mkUser]
  simp [classifyImage, hf, he, ht, hv, hnone, huc1, hs31, hinf1, hhc1,
    hf2, he2, hs32, hinf2, hhc2, classifyFromUser, uploadToS3, classifyFromUpload,
    List.find?_append, List.find?_cons, hmk]
  exact ⟨rfl, rfl⟩

/-- Witness for C1 at a concrete fresh email. -/
theorem classify_creates_user_once_witness :
    validEmail "bob@example.com" = true ∧
    ({} : DB).users.find? (fun u => u.email == "bob@example.com") = none ∧
    (∃ u h1 h2,
      (classifyImage envInferOk {} {} sampleReq).db.users = ({} : DB).users ++ [u] ∧
      u.email = "bob@example.com" ∧ u.fullName = some (localPart "bob@example.com") ∧
      (classifyImage envInferOk {} {} sampleReq).db.histories = ({} : DB).histories ++ [h1] ∧
      h1.userId = u.id ∧
      (classifyImage envInferOk (classifyImage envInferOk {} {} sampleReq).db
          (classifyImage envInferOk {} {} sampleReq).store sampleReq).db.users =
        (classifyImage envInferOk {} {} sampleReq).db.users ∧
      (classifyImage envInferOk (classifyImage envInferOk {} {} sampleReq).db
          (classifyImage envInferOk {} {} sampleReq).store sampleReq).db.histories =
        (classifyImage envInferOk {} {} sampleReq).db.histories ++ [h2] ∧
      h2.userId = u.id) :=
  ⟨by decide, rfl,
    classify_creates_user_once envInferOk envInferOk {} {} sampleReq sampleReq
      sampleFile sampleFile "bob@example.com" "0123456789abcdef" "0123456789abcdef"
      {} {} rfl rfl (by decide) rfl rfl rfl rfl rfl rfl rfl rfl rfl rfl⟩

/-- Claim C2: a classify request whose email is absent or malformed is
rejected with a 400 error before any collaborator is called: the database,
the object store and the call trace are untouched. -/
theorem invalid_email_rejected_without_side_effects
    (env : Env) (db : DB) (store : Store) (req : Request)
    (hbad : ∀ e, req.email = some e → validEmail e = false) :
    ∃ msg, (classifyImage env db store req).response = .err 400 msg ∧
      (classifyImage env db store req).db = db ∧
      (classifyImage env db store req).store = store ∧
      (classifyImage env db store req).calls = [] := by
  obtain ⟨file?, email?, crop?⟩ := req
  cases file? with
  | none => exact ⟨"No image file provided", rfl, rfl, rfl, rfl⟩
  | some file =>
    cases email? with
    | none => exact ⟨"Email is required", rfl, rfl, rfl, rfl⟩
    | some e =>
      by_cases he : (e == "") = true
      · refine ⟨"Email is required", ?_, ?_, ?_, ?_⟩ <;>
          simp [classifyImage, truthy, he]
      · have hb := hbad e rfl
        refine ⟨"Invalid email format", ?_, ?_, ?_, ?_⟩ <;>
          simp [classifyImage, truthy, he, hb]

/-- Witness for C2 at the email `not-an-email`. -/
theorem invalid_email_rejected_without_side_effects_witness :
    (∀ e, badReq.email = some e → validEmail e = false) ∧
    (∃ msg, (classifyImage {} {} {} badReq).response = .err 400 msg ∧
      (classifyImage ({} : Env) {} {} badReq).db = {} ∧
      (classifyImage ({} : Env) {} {} badReq).store = {} ∧
      (classifyImage ({} : Env) {} {} badReq).calls = []) :=
  ⟨fun e h => by cases h; decide,
    invalid_email_rejected_without_side_effects {} {} {} badReq
      (fun e h => by cases h; decide)⟩

/-- Claim C3: when the insights provider is unconfigured or its call fails,
the classify workflow still succeeds with a 200 response whose insights text
is the deterministic fallback — a pure function of the classification result
and crop type — which is nonempty and names the detected condition and the
confidence; a HistoryRecord carrying that text is still persisted. -/
theorem insights_failure_never_fatal (env : Env) (db : DB) (store : Store)
    (req : Request) (file : FileUpload) (email rand : String)
    (result : ClassificationResult)
    (hf : req.file = some file) (he : req.email = some email)
    (hv : validEmail email = true)
    (huc : env.userCreate = .ok ()) (hs3 : env.s3 = .ok rand)
    (hinf : env.inference = .ok result) (hhc : env.historyCreate = .ok ())
    (hfail : env.genaiConfigured = false ∨ ∃ m, env.genaiCall = .error m) :
    ∃ d rec,
      (classifyImage env db store req).response = .ok 200 d ∧
      d.insights = getFallbackResponse result
        (jsOrDefault (jsOr req.cropType result.crop_type) "crop") ∧
      d.insights ≠ "" ∧
      (jsOrDefault (jsOr result.disease result.predicted_class) "Unknown condition").data
        <:+: d.insights.data ∧
      (confidenceDisplay result.confidence).data <:+: d.insights.data ∧
      (classifyImage env db store req).db.histories = db.histories ++ [rec] ∧
      rec.genai_response = some d.insights := by
  have ht := truthy_of_validEmail hv
  have hgen := generateInsights_degraded env.genaiConfigured env.genaiCall result
    (jsOrDefault (jsOr req.cropType result.crop_type) "crop") hfail
  cases hfind : db.users.find? (fun u => u.email == email) with
  | some user =>
    simp [classifyImage, hf, he, ht, hv, hfind, classifyFromUser, uploadToS3, hs3,
      classifyFromUpload, hinf, hhc, hgen]
    exact ⟨fallback_ne_empty _ _, fallback_contains_condition _ _,
      fallback_contains_confidence _ _⟩
  | none =>
    simp [classifyImage, hf, he, ht, hv, hfind, huc, classifyFromUser, uploadToS3, hs3,
      classifyFromUpload, hinf, hhc, hgen]
    exact ⟨fallback_ne_empty _ _, fallback_contains_condition _ _,
      fallback_contains_confidence _ _⟩

/-- Witness for C3: no insights provider is configured, yet the call
succeeds with the fallback text and persists a record. -/
theorem insights_failure_never_fatal_witness :
    envInferOk.genaiConfigured = false ∧
    (∃ d rec,
      (classifyImage envInferOk {} {} sampleReq).response = .ok 200 d ∧
      d.insights = getFallbackResponse {}
        (jsOrDefault (jsOr sampleReq.cropType ({} : ClassificationResult).crop_type) "crop") ∧
      d.insights ≠ "" ∧
      (jsOrDefault (jsOr ({} : ClassificationResult).disease
          ({} : ClassificationResult).predicted_class) "Unknown condition").data
        <:+: d.insights.data ∧
      (confidenceDisplay ({} : ClassificationResult).confidence).data <:+: d.insights.data ∧
      (classifyImage envInferOk {} {} sampleReq).db.histories = ({} : DB).histories ++ [rec] ∧
      rec.genai_response = some d.insights) :=
  ⟨rfl,
    insights_failure_never_fatal envInferOk {} {} sampleReq sampleFile
      "bob@example.com" "0123456789abcdef" {} rfl rfl (by decide) rfl rfl rfl rfl
      (Or.inl rfl)⟩

/-- Claim C4: a HistoryRecord for a classify request exists exactly when the
workflow returned the success response — on success exactly one record is
appended, on any failure the history table is unchanged, while the uploaded
blob may remain in the object store as an accepted orphan. -/
theorem history_record_iff_success (env : Env) (db : DB) (store : Store) (req : Request) :
    (∀ s d, (classifyImage env db store req).response = .ok s d →
        ∃ h, (classifyImage env db store req).db.histories = db.histories ++ [h]) ∧
    (∀ s msg, (classifyImage env db store req).response = .err s msg →
        (classifyImage env db store req).db.histories = db.histories ∧
        ((classifyImage env db store req).store.blobs = store.blobs ∨
          ∃ k, (classifyImage env db store req).store.blobs = store.blobs ++ [k])) := by
  obtain ⟨file?, email?, crop?⟩ := req
  cases file? with
  | none => simp [classifyImage]
  | some file =>
    cases ht : truthy email? with
    | false => simp [classifyImage, ht]
    | true =>
      cases hv : validEmail (email?.getD "") with
      | false => simp [classifyImage, ht, hv]
      | true =>
        cases hfind : db.users.find? (fun u => u.email == email?.getD "") with
        | some user =>
          cases hs3 : env.s3 with
          | error msg =>
            simp [classifyImage, ht, hv, hfind, classifyFromUser, uploadToS3, hs3]
          | ok rand =>
            cases hinf : env.inference with
            | error msg =>
              simp [classifyImage, ht, hv, hfind, classifyFromUser, uploadToS3, hs3,
                classifyFromUpload, hinf]
            | ok result =>
              cases hhc : env.historyCreate with
              | error msg2 =>
                simp [classifyImage, ht, hv, hfind, classifyFromUser, uploadToS3, hs3,
                  classifyFromUpload, hinf, hhc]
              | ok u =>
                simp [classifyImage, ht, hv, hfind, classifyFromUser, uploadToS3, hs3,
                  classifyFromUpload, hinf, hhc]
        | none =>
          cases huc : env.userCreate with
          | error msg => simp [classifyImage, ht, hv, hfind, huc]
          | ok u0 =>
            cases hs3 : env.s3 with
            | error msg =>
              simp [classifyImage, ht, hv, hfind, huc, classifyFromUser, uploadToS3, hs3]
            | ok rand =>
              cases hinf : env.inference with
              | error msg =>
                simp [classifyImage, ht, hv, hfind, huc, classifyFromUser, uploadToS3, hs3,
                  classifyFromUpload, hinf]
              | ok result =>
                cases hhc : env.historyCreate with
                | error msg2 =>
                  simp [classifyImage, ht, hv, hfind, huc, classifyFromUser, uploadToS3, hs3,
                    classifyFromUpload, hinf, hhc]
                | ok u =>
                  simp [classifyImage, ht, hv, hfind, huc, classifyFromUser, uploadToS3, hs3,
                    classifyFromUpload, hinf, hhc]

/-- Witness for C4: with the inference service down, the request fails with
500 and no HistoryRecord is created. -/
theorem history_record_iff_success_witness :
    (classifyImage {} {} {} sampleReq).response =
      .err 500 "Classification failed: unavailable" ∧
    ((classifyImage ({} : Env) {} {} sampleReq).db.histories = ({} : DB).histories ∧
      ((classifyImage ({} : Env) {} {} sampleReq).store.blobs = ({} : Store).blobs ∨
        ∃ k, (classifyImage ({} : Env) {} {} sampleReq).store.blobs =
          ({} : Store).blobs ++ [k])) :=
  ⟨by decide,
    (history_record_iff_success {} {} {} sampleReq).2 500
      "Classification failed: unavailable" (by decide)⟩

/-- Claim C5, counterexample: the object-storage write is NOT the first side
effect of the classify workflow.  At a concrete request with a fresh email
whose upload fails, the workflow has already created a User before the
storage failure: the user table changed even though the store did not. -/
theorem storage_not_first_side_effect_counterexample :
    (classifyImage envS3Err {} {} sampleReq).response =
      .err 500 "Classification failed: storage" ∧
    (classifyImage envS3Err {} {} sampleReq).store.blobs = [] ∧
    ¬((classifyImage envS3Err {} {} sampleReq).db.users = ({} : DB).users) := by
  decide

/-- Claim C5, amended: user resolution precedes the object-storage write and
may create a User; when the blob upload fails, no HistoryRecord has been
persisted, the object store is unchanged, and the workflow undoes nothing —
the only possible prior state change is the one resolved/created User, which
remains. -/
theorem upload_failure_no_history_no_undo (env : Env) (db : DB) (store : Store)
    (req : Request) (msg : String) (hs3 : env.s3 = .error msg) :
    (classifyImage env db store req).db.histories = db.histories ∧
    (classifyImage env db store req).store = store ∧
    ((classifyImage env db store req).db.users = db.users ∨
      ∃ u, (classifyImage env db store req).db.users = db.users ++ [u] ∧
        u.email = req.email.getD "" ∧
        u.fullName = some (localPart (req.email.getD ""))) := by
  obtain ⟨file?, email?, crop?⟩ := req
  cases file? with
  | none => simp [classifyImage]
  | some file =>
    cases ht : truthy email? with
    | false => simp [classifyImage, ht]
    | true =>
      cases hv : validEmail (email?.getD "") with
      | false => simp [classifyImage, ht, hv]
      | true =>
        cases hfind : db.users.find? (fun u => u.email == email?.getD "") with
        | some user =>
          simp [classifyImage, ht, hv, hfind, classifyFromUser, uploadToS3, hs3]
        | none =>
          cases huc : env.userCreate with
          | error m => simp [classifyImage, ht, hv, hfind, huc]
          | ok u0 =>
            refine ⟨?_, ?_, Or.inr ⟨mkUser db (email?.getD ""), ?_, rfl, rfl⟩⟩ <;>
              simp [classifyImage, ht, hv, hfind, huc, classifyFromUser, uploadToS3, hs3]

/-- Witness for the amended C5 at a concrete failing upload. -/
theorem upload_failure_no_history_no_undo_witness :
    envS3Err.s3 = .error "storage" ∧
    ((classifyImage envS3Err {} {} sampleReq).db.histories = ({} : DB).histories ∧
      (classifyImage envS3Err {} {} sampleReq).store = {} ∧
      ((classifyImage envS3Err {} {} sampleReq).db.users = ({} : DB).users ∨
        ∃ u, (classifyImage envS3Err {} {} sampleReq).db.users = ({} : DB).users ++ [u] ∧
          u.email = sampleReq.email.getD "" ∧
          u.fullName = some (localPart (sampleReq.email.getD "")))) :=
  ⟨rfl, upload_failure_no_history_no_undo envS3Err {} {} sampleReq "storage" rfl⟩

/-- Claim C6: the model name sent to the inference service is a function of
`cropType` alone — any letter casing of `maize` selects the maize model and
every other value, including an absent `cropType`, selects the default
`bean` model; every inference call issued by the workflow carries exactly
that model name. -/
theorem model_selection_by_crop_type :
    (∀ (env : Env) (db : DB) (store : Store) (req : Request) (m : String),
        Collab.inference m ∈ (classifyImage env db store req).calls →
          m = modelNameFor req.cropType) ∧
    (∀ s, jsToLower s = "maize" → modelNameFor (some s) = "maize") ∧
    (∀ s, jsToLower s ≠ "maize" → modelNameFor (some s) = "bean") ∧
    modelNameFor none = "bean" := by
  refine ⟨?_, ?_, ?_, rfl⟩
  · intro env db store req m hm
    obtain ⟨file?, email?, crop?⟩ := req
    cases file? with
    | none => simp [classifyImage] at hm
    | some file =>
      cases ht : truthy email? with
      | false => simp [classifyImage, ht] at hm
      | true =>
        cases hv : validEmail (email?.getD "") with
        | false => simp [classifyImage, ht, hv] at hm
        | true =>
          cases hfind : db.users.find? (fun u => u.email == email?.getD "") with
          | some user =>
            cases hs3 : env.s3 with
            | error msg =>
              simp [classifyImage, ht, hv, hfind, classifyFromUser, uploadToS3, hs3] at hm
            | ok rand =>
              cases hinf : env.inference with
              | error msg =>
                simp [classifyImage, ht, hv, hfind, classifyFromUser, uploadToS3, hs3,
                  classifyFromUpload, hinf] at hm
                exact hm
              | ok result =>
                cases hhc : env.historyCreate with
                | error msg2 =>
                  simp [classifyImage, ht, hv, hfind, classifyFromUser, uploadToS3, hs3,
                    classifyFromUpload, hinf, hhc] at hm
                  exact hm
                | ok u =>
                  simp [classifyImage, ht, hv, hfind, classifyFromUser, uploadToS3, hs3,
                    classifyFromUpload, hinf, hhc] at hm
                  exact hm
          | none =>
            cases huc : env.userCreate with
            | error msg => simp [classifyImage, ht, hv, hfind, huc] at hm
            | ok u0 =>
              cases hs3 : env.s3 with
              | error msg =>
                simp [classifyImage, ht, hv, hfind, huc, classifyFromUser,
                  uploadToS3, hs3] at hm
              | ok rand =>
                cases hinf : env.inference with
                | error msg =>
                  simp [classifyImage, ht, hv, hfind, huc, classifyFromUser, uploadToS3,
                    hs3, classifyFromUpload, hinf] at hm
                  exact hm
                | ok result =>
                  cases hhc : env.historyCreate with
                  | error msg2 =>
                    simp [classifyImage, ht, hv, hfind, huc, classifyFromUser, uploadToS3,
                      hs3, classifyFromUpload, hinf, hhc] at hm
                    exact hm
                  | ok u =>
                    simp [classifyImage, ht, hv, hfind, huc, classifyFromUser, uploadToS3,
                      hs3, classifyFromUpload, hinf, hhc] at hm
                    exact hm
  · intro s h; simp [modelNameFor, h]
  · intro s h; simp [modelNameFor, h]

/-- Witness for C6: a mixed-case `MaIzE` selects the maize model, `wheat`
and an absent crop type select `bean`, and a concrete workflow run calls
inference with exactly that model name. -/
theorem model_selection_by_crop_type_witness :
    Collab.inference "bean" ∈ (classifyImage envInferOk {} {} sampleReq).calls ∧
    "bean" = modelNameFor sampleReq.cropType ∧
    jsToLower "MaIzE" = "maize" ∧ modelNameFor (some "MaIzE") = "maize" ∧
    jsToLower "wheat" ≠ "maize" ∧ modelNameFor (some "wheat") = "bean" :=
  ⟨by decide,
    model_selection_by_crop_type.1 envInferOk {} {} sampleReq "bean" (by decide),
    by decide,
    model_selection_by_crop_type.2.1 "MaIzE" (by decide),
    by decide,
    model_selection_by_crop_type.2.2.1 "wheat" (by decide)⟩

/-- Claim C7: for an existing user, `getUserHistory` returns the user's
records newest-first, skipping `(page-1)*limit` records and returning at
most `limit`, with `page` defaulting to 1 and `limit` to 10 when absent, and
reports `totalPages` equal to the ceiling of `total / limit`. -/
theorem history_pagination_newest_first (db : DB) (e : String)
    (pageQ limitQ : Option Nat) (user : User)
    (he : (e == "") = false)
    (hfind : db.users.find? (fun u => u.email == e) = some user) :
    getUserHistory db (some e) pageQ limitQ =
      (.ok 200 (.found ⟨user.id, user.email, user.fullName⟩
          (((sortNewestFirst (userRecords db user.id)).drop
              ((jsOrNum pageQ 1 - 1) * jsOrNum limitQ 10)).take (jsOrNum limitQ 10))
          ⟨jsOrNum pageQ 1, jsOrNum limitQ 10, (userRecords db user.id).length,
            (userRecords db user.id).length ⌈/⌉ jsOrNum limitQ 10⟩),
        db) ∧
    List.Sorted newerFirst
      (((sortNewestFirst (userRecords db user.id)).drop
          ((jsOrNum pageQ 1 - 1) * jsOrNum limitQ 10)).take (jsOrNum limitQ 10)) ∧
    (((sortNewestFirst (userRecords db user.id)).drop
        ((jsOrNum pageQ 1 - 1) * jsOrNum limitQ 10)).take (jsOrNum limitQ 10)).length ≤
      jsOrNum limitQ 10 ∧
    (pageQ = none → jsOrNum pageQ 1 = 1) ∧
    (limitQ = none → jsOrNum limitQ 10 = 10) := by
  refine ⟨?_, ?_, ?_, ?_, ?_⟩
  · simp [getUserHistory, truthy, he, hfind]
    rfl
  · exact List.Pairwise.sublist
      ((List.take_sublist _ _).trans (List.drop_sublist _ _))
      (List.sorted_insertionSort newerFirst _)
  · exact (List.length_take _ _).le.trans (min_le_left _ _)
  · intro h; subst h; rfl
  · intro h; subst h; rfl

/-- Witness for C7: a user with 15 records queried with `page=2`, `limit=10`
gets back the five oldest records (positions 11 to 15), newest-first, with
`totalPages = 2`. -/
theorem history_pagination_newest_first_witness :
    ("u@example.com" == "") = false ∧
    paginationDB.users.find? (fun u => u.email == "u@example.com") = some paginationUser ∧
    (getUserHistory paginationDB (some "u@example.com") (some 2) (some 10) =
      (.ok 200 (.found ⟨paginationUser.id, paginationUser.email, paginationUser.fullName⟩
          (((sortNewestFirst (userRecords paginationDB paginationUser.id)).drop
              ((jsOrNum (some 2) 1 - 1) * jsOrNum (some 10) 10)).take (jsOrNum (some 10) 10))
          ⟨jsOrNum (some 2) 1, jsOrNum (some 10) 10,
            (userRecords paginationDB paginationUser.id).length,
            (userRecords paginationDB paginationUser.id).length ⌈/⌉ jsOrNum (some 10) 10⟩),
        paginationDB) ∧
      List.Sorted newerFirst
        (((sortNewestFirst (userRecords paginationDB paginationUser.id)).drop
            ((jsOrNum (some 2) 1 - 1) * jsOrNum (some 10) 10)).take (jsOrNum (some 10) 10)) ∧
      (((sortNewestFirst (userRecords paginationDB paginationUser.id)).drop
          ((jsOrNum (some 2) 1 - 1) * jsOrNum (some 10) 10)).take
            (jsOrNum (some 10) 10)).length ≤ jsOrNum (some 10) 10 ∧
      ((some 2 : Option Nat) = none → jsOrNum (some 2) 1 = 1) ∧
      ((some 10 : Option Nat) = none → jsOrNum (some 10) 10 = 10)) ∧
    getUserHistory paginationDB (some "u@example.com") (some 2) (some 10) =
      (.ok 200 (.found ⟨7, "u@example.com", none⟩
          ((List.range 5).map (fun k => { id := 4 - k, userId := 7, created_at := 5 - k }))
          ⟨2, 10, 15, 2⟩),
        paginationDB) :=
  ⟨by decide, by decide,
    history_pagination_newest_first paginationDB "u@example.com" (some 2) (some 10)
      paginationUser (by decide) (by decide),
    by decide⟩

/-- Claim C8: `deleteClassification` answers 404 when no record with the
given id exists; when the record exists but is owned by a user whose email
differs from the caller's, it answers 403 and the record stays in the
database; only on an email match is the row deleted; the object store is
untouched in every case. -/
theorem delete_ownership_check (db : DB) (store : Store) (i : Nat) (e : String)
    (he : (e == "") = false) :
    (db.histories.find? (fun h => h.id == i) = none →
      deleteClassification db store (some i) (some e) =
        (.err 404 "Classification not found", db, store)) ∧
    (∀ record owner,
      db.histories.find? (fun h => h.id == i) = some record →
      db.users.find? (fun u => u.id == record.userId) = some owner →
      (owner.email == e) = false →
        deleteClassification db store (some i) (some e) =
          (.err 403 "You can only delete your own classifications", db, store) ∧
        record ∈ db.histories) ∧
    (∀ record owner,
      db.histories.find? (fun h => h.id == i) = some record →
      db.users.find? (fun u => u.id == record.userId) = some owner →
      owner.email = e →
        deleteClassification db store (some i) (some e) =
          (.ok 200 "Classification deleted successfully",
            { db with histories := db.histories.filter (fun h => !(h.id == i)) },
            store)) ∧
    (deleteClassification db store (some i) (some e)).2.2 = store := by
  refine ⟨?_, ?_, ?_, ?_⟩
  · intro hnone; simp [deleteClassification, truthy, he, hnone]
  · intro record owner hrec howner hne
    refine ⟨by simp [deleteClassification, truthy, he, hrec, howner, hne],
      List.mem_of_find?_eq_some hrec⟩
  · intro record owner hrec howner heq
    simp [deleteClassification, truthy, he, hrec, howner, heq]
  · cases hrec : db.histories.find? (fun h => h.id == i) with
    | none => simp [deleteClassification, truthy, he, hrec]
    | some record =>
      cases howner : db.users.find? (fun u => u.id == record.userId) with
      | none => simp [deleteClassification, truthy, he, hrec, howner]
      | some owner =>
        cases hne : owner.email == e with
        | false => simp [deleteClassification, truthy, he, hrec, howner, hne]
        | true => simp [deleteClassification, truthy, he, hrec, howner, hne]

/-- Witness for C8: a caller with the wrong email gets 403 and the record
survives. -/
theorem delete_ownership_check_witness :
    ("eve@example.com" == "") = false ∧
    deleteDB.histories.find? (fun h => h.id == 5) = some ownedRecord ∧
    (deleteClassification deleteDB {} (some 5) (some "eve@example.com") =
      (.err 403 "You can only delete your own classifications", deleteDB, {}) ∧
      ownedRecord ∈ deleteDB.histories) :=
  ⟨by decide, by decide,
    (delete_ownership_check deleteDB {} 5 "eve@example.com" (by decide)).2.1
      ownedRecord ownerUser (by decide) (by decide) (by decide)⟩

/-- Claim C9: reads for an email with no user are successes, not errors:
`getUserHistory` answers 200 with an empty history, `getUserStats` answers
200 with all-zero, all-empty statistics, and neither touches the database. -/
theorem missing_user_reads_return_empty_success (db : DB) (e : String)
    (pageQ limitQ : Option Nat)
    (he : (e == "") = false)
    (hfind : db.users.find? (fun u => u.email == e) = none) :
    getUserHistory db (some e) pageQ limitQ = (.ok 200 (.noUser e []), db) ∧
    getUserStats db (some e) = (.ok 200 (.noUser e ⟨0, [], [], []⟩), db) := by
  constructor <;> simp [getUserHistory, getUserStats, truthy, he, hfind]

/-- Witness for C9 at a concrete unknown email over the empty database. -/
theorem missing_user_reads_return_empty_success_witness :
    ("ghost@example.com" == "") = false ∧
    (getUserHistory {} (some "ghost@example.com") none none =
      (.ok 200 (.noUser "ghost@example.com" []), ({} : DB)) ∧
     getUserStats {} (some "ghost@example.com") =
      (.ok 200 (.noUser "ghost@example.com" ⟨0, [], [], []⟩), ({} : DB))) :=
  ⟨by decide,
    missing_user_reads_return_empty_success {} "ghost@example.com" none none
      (by decide) rfl⟩

/-- Claim C10: when the classification result carries neither a `disease`
nor a `predicted_class` field, the persisted record's disease label is the
string `Unknown`, while the success response's `classification.disease`
field omits that fallback — the stored label and the returned label differ. -/
theorem unknown_disease_stored_not_returned (env : Env) (db : DB) (store : Store)
    (req : Request) (file : FileUpload) (email rand : String)
    (result : ClassificationResult)
    (hf : req.file = some file) (he : req.email = some email)
    (hv : validEmail email = true)
    (huc : env.userCreate = .ok ()) (hs3 : env.s3 = .ok rand)
    (hinf : env.inference = .ok result) (hhc : env.historyCreate = .ok ())
    (hd : result.disease = none) (hp : result.predicted_class = none) :
    ∃ d rec,
      (classifyImage env db store req).response = .ok 200 d ∧
      (classifyImage env db store req).db.histories = db.histories ++ [rec] ∧
      rec.disease = some "Unknown" ∧
      d.classification.disease = none := by
  have ht := truthy_of_validEmail hv
  have hjs1 : jsOr result.disease result.predicted_class = none := by
    simp [jsOr, truthy, hd, hp]
  have hjs2 : jsOrDefault (jsOr result.disease result.predicted_class) "Unknown" = "Unknown" := by
    simp [jsOrDefault, hjs1]
  cases hfind : db.users.find? (fun u => u.email == email) with
  | some user =>
    simp [classifyImage, hf, he, ht, hv, hfind, classifyFromUser, uploadToS3, hs3,
      classifyFromUpload, hinf, hhc, hjs1, hjs2]
    rfl
  | none =>
    simp [classifyImage, hf, he, ht, hv, hfind, huc, classifyFromUser, uploadToS3, hs3,
      classifyFromUpload, hinf, hhc, hjs1, hjs2]
    rfl

/-- Witness for C10: the inference API returns an empty object; the stored
record says `Unknown` while the response omits the disease. -/
theorem unknown_disease_stored_not_returned_witness :
    ({} : ClassificationResult).disease = none ∧
    (∃ d rec,
      (classifyImage envInferOk {} {} sampleReq).response = .ok 200 d ∧
      (classifyImage envInferOk {} {} sampleReq).db.histories = ({} : DB).histories ++ [rec] ∧
      rec.disease = some "Unknown" ∧
      d.classification.disease = none) :=
  ⟨rfl,
    unknown_disease_stored_not_returned envInferOk {} {} sampleReq sampleFile
      "bob@example.com" "0123456789abcdef" {} rfl rfl (by decide) rfl rfl rfl rfl rfl rfl⟩

end Industry
